/-
Verification of the unitunes reconciliation core against its specification.

This file gives a shallow embedding, in Lean 4, of the parts of the
unitunes code base that the specification's claims are about:

* the identity model (`src/unitunes/uri.py`),
* the entity model (`src/unitunes/track.py`, `src/unitunes/playlist.py`),
* the matcher (`src/unitunes/matcher.py`),
* the searcher (`src/unitunes/searcher.py`),
* the pull reconciliation (`src/unitunes/pull_playlist.py`,
  `PlaylistManager.pull_playlist` in `src/unitunes/main.py`).

Modelling conventions:

* Python floats are modelled as `ℚ`.  All numeric constants of the matcher
  (weights, thresholds) are small rationals, so no rounding behaviour is lost.
* The external `strsimpy` Jaro-Winkler metric is not part of this repository;
  every definition that needs it takes it as an explicit parameter
  `jw : String → String → ℚ` (applied, as in the source, to the lowercased
  strings).
* Fallible code (Python exceptions) is modelled with `Except String`:
  a raised exception becomes `.error msg`, and in-place mutation that the
  exception would discard from the caller's perspective is not represented.
* pydantic v1 value objects become Lean structures; pydantic v1 equality
  compares the dictionaries of *all* declared fields (the class itself is not
  part of the comparison), which for the URI model is the four fields
  `service`, `type`, `uri`, `url`.  Structure equality of the embedding
  matches this.
-/

import Mathlib

namespace Unitunes

set_option maxRecDepth 10000

/-! ### String helpers

Python string primitives used by the source (`str.lower`, `in`,
`str.startswith`, `str.split`) are implemented over `List Char` so that they
evaluate on concrete inputs.  All strings appearing in the source's constants
and in the claims are ASCII, where these implementations agree with Python. -/

/-- `str.lower` on one character (ASCII range). -/
def lowerChar (c : Char) : Char :=
  if 'A' ≤ c ∧ c ≤ 'Z' then Char.ofNat (c.toNat + 32) else c

/-- Python's `s.lower()` (ASCII range). -/
def pyLower (s : String) : String :=
  ⟨s.toList.map lowerChar⟩

/-- Python's `needle in hay` substring test, on lists of characters. -/
def listContainsSub (needle hay : List Char) : Bool :=
  match hay with
  | [] => needle.isEmpty
  | _ :: t => needle.isPrefixOf hay || listContainsSub needle t

/-- Python's `needle in hay` substring test for strings. -/
def strIn (needle hay : String) : Bool :=
  listContainsSub needle.toList hay.toList

/-- Python's `s.startswith(p)`. -/
def pyStartsWith (s p : String) : Bool :=
  p.toList.isPrefixOf s.toList

/-- Python's `s.split(sep)` for a one-character separator (the source only
splits on `"/"` and `"="`). -/
def pySplit (sep : Char) : List Char → List (List Char)
  | [] => [[]]
  | c :: rest =>
      let r := pySplit sep rest
      if c = sep then [] :: r
      else
        match r with
        | [] => [[c]]
        | h :: t => (c :: h) :: t

/-! ### `src/unitunes/types.py` -/

/-- `ServiceType` enum from `src/unitunes/types.py`. -/
inductive ServiceType where
  | spotify
  | ytm
  | mb
  | beatsaber
deriving DecidableEq, Repr

/-- `EntityType` enum from `src/unitunes/types.py`. -/
inductive EntityType where
  | track
  | playlist
  | album
deriving DecidableEq, Repr

/-! ### `src/unitunes/uri.py` -/

/-- `URIBase` from `src/unitunes/uri.py` (a frozen pydantic model with the
four fields `service`, `type`, `uri`, `url`).  The concrete variants
(`SpotifyTrackURI`, …) only fix the values of `service` and `type`, so one
structure represents all of them; pydantic v1 equality compares the dict of
all four fields, which is exactly structure equality here. -/
structure URIBase where
  service : ServiceType
  type : EntityType
  uri : String
  url : String
deriving DecidableEq, Repr

/-- Python's `url.split(sep)[-1]` (`str.split` with a separator never returns
an empty list, so taking the last element is total). -/
def splitLast (sep : Char) (url : String) : String :=
  ⟨(pySplit sep url.toList).getLastD []⟩

namespace SpotifyTrackURI

/-- `SpotifyTrackURI.uri_to_url`. -/
def uri_to_url (uri : String) : String :=
  "https://open.spotify.com/track/" ++ uri

/-- `SpotifyTrackURI.url_to_uri`: `url.split("/")[-1]`. -/
def url_to_uri (url : String) : String :=
  splitLast '/' url

/-- `SpotifyTrackURI.valid_url`. -/
def valid_url (url : String) : Bool :=
  pyStartsWith url "https://open.spotify.com/track/"

/-- `SpotifyTrackURI.from_uri`. -/
def from_uri (uri : String) : URIBase :=
  ⟨.spotify, .track, uri, uri_to_url uri⟩

/-- `SpotifyTrackURI.from_url`. -/
def from_url (url : String) : URIBase :=
  from_uri (url_to_uri url)

end SpotifyTrackURI

namespace SpotifyPlaylistURI

/-- `SpotifyPlaylistURI.uri_to_url`, with the "Liked Songs" sentinel case. -/
def uri_to_url (uri : String) : String :=
  if uri = "Liked Songs" then "spotify:liked_songs"
  else "https://open.spotify.com/playlist/" ++ uri

/-- `SpotifyPlaylistURI.url_to_uri`, with the "spotify:liked_songs" sentinel. -/
def url_to_uri (url : String) : String :=
  if url = "spotify:liked_songs" then "Liked Songs"
  else splitLast '/' url

/-- `SpotifyPlaylistURI.valid_url`. -/
def valid_url (url : String) : Bool :=
  pyStartsWith url "https://open.spotify.com/playlist/" || url = "spotify:liked_songs"

/-- `SpotifyPlaylistURI.from_uri`. -/
def from_uri (uri : String) : URIBase :=
  ⟨.spotify, .playlist, uri, uri_to_url uri⟩

/-- `SpotifyPlaylistURI.from_url`. -/
def from_url (url : String) : URIBase :=
  from_uri (url_to_uri url)

end SpotifyPlaylistURI

namespace YtmTrackURI

/-- `YtmTrackURI.uri_to_url`. -/
def uri_to_url (uri : String) : String :=
  "https://music.youtube.com/watch?v=" ++ uri

/-- `YtmTrackURI.url_to_uri`: `url.split("=")[-1]`. -/
def url_to_uri (url : String) : String :=
  splitLast '=' url

/-- `YtmTrackURI.valid_url`. -/
def valid_url (url : String) : Bool :=
  pyStartsWith url "https://music.youtube.com/watch?v="

/-- `YtmTrackURI.from_uri`. -/
def from_uri (uri : String) : URIBase :=
  ⟨.ytm, .track, uri, uri_to_url uri⟩

/-- `YtmTrackURI.from_url`. -/
def from_url (url : String) : URIBase :=
  from_uri (url_to_uri url)

end YtmTrackURI

namespace YtmPlaylistURI

/-- `YtmPlaylistURI.uri_to_url`. -/
def uri_to_url (uri : String) : String :=
  "https://music.youtube.com/playlist?list=" ++ uri

/-- `YtmPlaylistURI.url_to_uri`: `url.split("=")[-1]`. -/
def url_to_uri (url : String) : String :=
  splitLast '=' url

/-- `YtmPlaylistURI.valid_url`. -/
def valid_url (url : String) : Bool :=
  pyStartsWith url "https://music.youtube.com/playlist?list="

/-- `YtmPlaylistURI.from_uri`. -/
def from_uri (uri : String) : URIBase :=
  ⟨.ytm, .playlist, uri, uri_to_url uri⟩

/-- `YtmPlaylistURI.from_url`. -/
def from_url (url : String) : URIBase :=
  from_uri (url_to_uri url)

end YtmPlaylistURI

namespace MB_RECORDING_URI

/-- `MB_RECORDING_URI.uri_to_url`. -/
def uri_to_url (uri : String) : String :=
  "https://musicbrainz.org/recording/" ++ uri

/-- `MB_RECORDING_URI.url_to_uri`. -/
def url_to_uri (url : String) : String :=
  splitLast '/' url

/-- `MB_RECORDING_URI.valid_url`. -/
def valid_url (url : String) : Bool :=
  pyStartsWith url "https://musicbrainz.org/recording/"

/-- `MB_RECORDING_URI.from_uri`. -/
def from_uri (uri : String) : URIBase :=
  ⟨.mb, .track, uri, uri_to_url uri⟩

/-- `MB_RECORDING_URI.from_url`. -/
def from_url (url : String) : URIBase :=
  from_uri (url_to_uri url)

end MB_RECORDING_URI

namespace MB_RELEASE_URI

/-- `MB_RELEASE_URI.uri_to_url`. -/
def uri_to_url (uri : String) : String :=
  "https://musicbrainz.org/release/" ++ uri

/-- `MB_RELEASE_URI.url_to_uri`. -/
def url_to_uri (url : String) : String :=
  splitLast '/' url

/-- `MB_RELEASE_URI.valid_url`. -/
def valid_url (url : String) : Bool :=
  pyStartsWith url "https://musicbrainz.org/release/"

/-- `MB_RELEASE_URI.from_uri`. -/
def from_uri (uri : String) : URIBase :=
  ⟨.mb, .album, uri, uri_to_url uri⟩

/-- `MB_RELEASE_URI.from_url`. -/
def from_url (url : String) : URIBase :=
  from_uri (url_to_uri url)

end MB_RELEASE_URI

/-- The elements of the `all_uri_types` list in `src/unitunes/uri.py`, line
220: `all_uri_types = [..., *playlist_uri_types, *track_uri_types,
*album_uri_types]`.  The literal `...` in that Python list is the `Ellipsis`
object, which is an element of the list like any other; it is represented by
the `ellipsisObj` constructor. -/
inductive UriClass where
  | ellipsisObj
  | spotifyPlaylist
  | ytmPlaylist
  | spotifyTrack
  | ytmTrack
  | mbRecording
  | mbRelease
deriving DecidableEq, Repr

/-- `all_uri_types` from `src/unitunes/uri.py`: the Python list literal
`[..., *playlist_uri_types, *track_uri_types, *album_uri_types]`. -/
def all_uri_types : List UriClass :=
  [.ellipsisObj, .spotifyPlaylist, .ytmPlaylist, .spotifyTrack, .ytmTrack,
   .mbRecording, .mbRelease]

/-- `cls.valid_url(url)` dispatched on the element of `all_uri_types`.
Attribute lookup on the `Ellipsis` object raises `AttributeError`. -/
def UriClass.callValidUrl (c : UriClass) (url : String) : Except String Bool :=
  match c with
  | .ellipsisObj => .error "AttributeError: 'ellipsis' object has no attribute 'valid_url'"
  | .spotifyPlaylist => .ok (SpotifyPlaylistURI.valid_url url)
  | .ytmPlaylist => .ok (YtmPlaylistURI.valid_url url)
  | .spotifyTrack => .ok (SpotifyTrackURI.valid_url url)
  | .ytmTrack => .ok (YtmTrackURI.valid_url url)
  | .mbRecording => .ok (MB_RECORDING_URI.valid_url url)
  | .mbRelease => .ok (MB_RELEASE_URI.valid_url url)

/-- `cls.from_url(url)` dispatched on the element of `all_uri_types`. -/
def UriClass.callFromUrl (c : UriClass) (url : String) : Except String URIBase :=
  match c with
  | .ellipsisObj => .error "AttributeError: 'ellipsis' object has no attribute 'from_url'"
  | .spotifyPlaylist => .ok (SpotifyPlaylistURI.from_url url)
  | .ytmPlaylist => .ok (YtmPlaylistURI.from_url url)
  | .spotifyTrack => .ok (SpotifyTrackURI.from_url url)
  | .ytmTrack => .ok (YtmTrackURI.from_url url)
  | .mbRecording => .ok (MB_RECORDING_URI.from_url url)
  | .mbRelease => .ok (MB_RELEASE_URI.from_url url)

/-- The loop of `URI_from_url` over a list of classes:
`for cls in all_uri_types: if cls.valid_url(url): return cls.from_url(url)`,
raising `ValueError` when the loop falls through. -/
def uriFromUrlLoop (url : String) : List UriClass → Except String URIBase
  | [] => .error ("ValueError: Unknown URL format " ++ url)
  | c :: rest =>
      match c.callValidUrl url with
      | .error e => .error e
      | .ok true => c.callFromUrl url
      | .ok false => uriFromUrlLoop url rest

/-- `URI_from_url` from `src/unitunes/uri.py`: dispatch over `all_uri_types`. -/
def URI_from_url (url : String) : Except String URIBase :=
  uriFromUrlLoop url all_uri_types

/-! ### `src/unitunes/track.py` -/

/-- `AliasedString` from `src/unitunes/track.py`: a primary value plus a list
of aliases.  (The pydantic constructor deduplicates `aliases` and removes
`value` from it; the claims below never construct values violating that
invariant, and no definition in this file depends on it.) -/
structure AliasedString where
  value : String
  aliases : List String
deriving DecidableEq, Repr

/-- `AliasedString.all_values`: `[self.value] + self.aliases`. -/
def AliasedString.all_values (s : AliasedString) : List String :=
  s.value :: s.aliases

/-- `AliasedString.shares_alias`. -/
def AliasedString.shares_alias (s other : AliasedString) : Bool :=
  s.all_values.any (fun a => decide (a ∈ other.all_values))

/-- `Track` from `src/unitunes/track.py`, lines 43-48.  The model declares
exactly the fields `name`, `albums`, `artists`, `length`, `uris`; in
particular it declares **no** `bad_uris` field (although
`src/unitunes/pull_playlist.py` and `src/unitunes/main.py` access
`track.bad_uris`). -/
structure Track where
  name : AliasedString
  albums : List AliasedString
  artists : List AliasedString
  length : Option Int
  uris : List URIBase
deriving DecidableEq, Repr

/-- `Track.is_on_service`. -/
def Track.is_on_service (t : Track) (service : ServiceType) : Bool :=
  t.uris.any (fun uri => uri.service = service)

/-- The inner helper `merge_aliased_str_into_list` of `Track.merge`: if the
incoming `AliasedString` shares an alias with an element of the list, the
list is left unchanged (the source mutates the *incoming* object, which
belongs to the discarded argument track); otherwise the incoming string is
appended. -/
def mergeAliasedStrIntoList (list : List AliasedString) (astr : AliasedString) :
    List AliasedString :=
  if list.any (fun other => astr.shares_alias other) then list else list ++ [astr]

/-- The inner helper `merge_uris` of `Track.merge`: append each URI of the
other track that is not already present. -/
def mergeUris (self other : List URIBase) : List URIBase :=
  other.foldl (fun us u => if u ∈ us then us else us ++ [u]) self

/-- `Track.merge` from `src/unitunes/track.py`: unions `uris`, merges
`albums` and `artists` by shared alias, and fills `length` when absent
(`other.length is not None and self.length is None`).  The `name` field is
not touched. -/
def Track.merge (self other : Track) : Track :=
  { self with
    uris := mergeUris self.uris other.uris
    albums := other.albums.foldl mergeAliasedStrIntoList self.albums
    artists := other.artists.foldl mergeAliasedStrIntoList self.artists
    length := match other.length, self.length with
      | some l, none => some l
      | _, l => l }

/-! ### `src/unitunes/matcher.py` -/

/-- `pairwise_max` from `src/unitunes/matcher.py`:
`mx = 0; for i in a: for j in b: mx = max(mx, f(i, j)); return mx`. -/
def pairwise_max (f : α → β → ℚ) (a : List α) (b : List β) : ℚ :=
  a.foldl (fun mx i => b.foldl (fun mx j => max mx (f i j)) mx) 0

/-- The `special_terms` list of `normalized_string_similarity`. -/
def special_terms : List String :=
  ["instrumental", "remix", "cover", "live", "version", "edit"]

/-- `normalized_string_similarity` from `src/unitunes/matcher.py`: if exactly
one of the two lowercased strings contains one of the `special_terms`, the
similarity is 0; otherwise it is the Jaro-Winkler similarity of the
lowercased strings.  The external `strsimpy` metric is the parameter `jw`. -/
def normalized_string_similarity (jw : String → String → ℚ) (s1 s2 : String) : ℚ :=
  if special_terms.any (fun term => xor (strIn term (pyLower s1)) (strIn term (pyLower s2)))
  then 0
  else jw (pyLower s1) (pyLower s2)

/-- `DefaultMatcherStrategy.aliased_string_similarity`. -/
def aliased_string_similarity (jw : String → String → ℚ) (s1 s2 : AliasedString) : ℚ :=
  pairwise_max (normalized_string_similarity jw) s1.all_values s2.all_values

/-- The inner `artists_similarity` of `DefaultMatcherStrategy.similarity`:
score `0.5` when either artist list is empty, otherwise the pairwise
maximum of alias similarities. -/
def artists_similarity (jw : String → String → ℚ)
    (artists1 artists2 : List AliasedString) : ℚ :=
  if artists1.length = 0 ∨ artists2.length = 0 then 1/2
  else pairwise_max (aliased_string_similarity jw) artists1 artists2

/-- The inner `album_similarity` of `DefaultMatcherStrategy.similarity`. -/
def album_similarity (jw : String → String → ℚ)
    (album1 album2 : List AliasedString) : ℚ :=
  pairwise_max (aliased_string_similarity jw) album1 album2

/-- The inner `length_similarity` of `DefaultMatcherStrategy.similarity`. -/
def length_similarity (length_sec_1 length_sec_2 : Int) : ℚ :=
  let d : Int := |length_sec_1 - length_sec_2|
  if d > 5 then 0 else 1 - (d : ℚ) / 5

/-- The fixed feature weights of `DefaultMatcherStrategy.similarity`. -/
def weights : String → ℚ
  | "name" => 50
  | "album" => 20
  | "artists" => 30
  | "length" => 20
  | _ => 0

/-- Python truthiness of an `Optional[int]`: `None` and `0` are falsy. -/
def lengthTruthy : Option Int → Bool
  | none => false
  | some n => n ≠ 0

/-- The `name` entry of the `feature_scores` dictionary.  The source's guard
`if track1.name and track2.name` is always true in Python, because an
`AliasedString` object is always truthy, so the entry is always present. -/
def name_feature (jw : String → String → ℚ) (track1 track2 : Track) :
    List (String × ℚ) :=
  [("name", aliased_string_similarity jw track1.name track2.name)]

/-- The `artists` entry of the `feature_scores` dictionary, present only when
both artist lists are non-empty (`if track1.artists and track2.artists`). -/
def artists_feature (jw : String → String → ℚ) (track1 track2 : Track) :
    List (String × ℚ) :=
  if track1.artists ≠ [] ∧ track2.artists ≠ []
  then [("artists", artists_similarity jw track1.artists track2.artists)] else []

/-- The `album` entry of the `feature_scores` dictionary, present only when
both album lists are non-empty (`if track1.albums and track2.albums`). -/
def album_feature (jw : String → String → ℚ) (track1 track2 : Track) :
    List (String × ℚ) :=
  if track1.albums ≠ [] ∧ track2.albums ≠ []
  then [("album", album_similarity jw track1.albums track2.albums)] else []

/-- The `length` entry of the `feature_scores` dictionary, present only when
both lengths are Python-truthy (`if track1.length and track2.length`: `None`
and `0` are falsy). -/
def length_feature (track1 track2 : Track) : List (String × ℚ) :=
  match track1.length, track2.length with
  | some l1, some l2 =>
      if l1 ≠ 0 ∧ l2 ≠ 0 then [("length", length_similarity l1 l2)] else []
  | _, _ => []

/-- The `feature_scores` dictionary built by `DefaultMatcherStrategy.similarity`
(insertion order `name`, `artists`, `album`, `length`, as in the source). -/
def feature_scores (jw : String → String → ℚ) (track1 track2 : Track) :
    List (String × ℚ) :=
  name_feature jw track1 track2 ++ artists_feature jw track1 track2
    ++ album_feature jw track1 track2 ++ length_feature track1 track2

/-- `DefaultMatcherStrategy.similarity` from `src/unitunes/matcher.py`:
return 1 when the URI lists intersect, otherwise the re-normalized weighted
mean of the present feature scores (0 when no feature is present). -/
def similarity (jw : String → String → ℚ) (track1 track2 : Track) : ℚ :=
  if track1.uris.any (fun uri1 => decide (uri1 ∈ track2.uris)) then 1
  else
    let fs := feature_scores jw track1 track2
    if fs.isEmpty then 0
    else
      (fs.map (fun p => p.2 * weights p.1)).sum / (fs.map (fun p => weights p.1)).sum

/-- `MatcherStrategy.are_same`: `similarity(track1, track2) >= theshold`
(the source's default for `theshold` is `0.7`; callers in this file always
pass it explicitly). -/
def are_same (jw : String → String → ℚ) (track1 track2 : Track) (theshold : ℚ) : Bool :=
  similarity jw track1 track2 ≥ theshold

/-! ### `src/unitunes/searcher.py`

A `Searchable` service (`src/unitunes/services/services.py`) provides
`query_generator(track)` and `search_query(query)`.  For the embedding a
service is the data the searcher consumes: the generated query list for the
input track and the result function; `Query = NewType("Query", Any)` is a
type parameter. -/

/-- The `Searchable` capability, as consumed by `DefaultSearcherStrategy`:
`queries` is `service.query_generator(track)` for the input track, and
`search_query` executes one query. -/
structure SearchService (Q : Type) where
  queries : List Q
  search_query : Q → List Track

/-- The query loop of `DefaultSearcherStrategy.search`: for each query in
order, merge its results into the accumulator (skipping exact duplicates),
and break as soon as any result of the current query scores at least the
stop threshold `0.8` against the input track.  Returns the queries actually
issued together with the accumulated matches. -/
def searchLoop (jw : String → String → ℚ) (svc : SearchService Q) (track : Track) :
    List Q → List Track → List Q × List Track
  | [], acc => ([], acc)
  | query :: rest, acc =>
      let new_matches := svc.search_query query
      let acc := new_matches.foldl
        (fun ms m => if m ∈ ms then ms else ms ++ [m]) acc
      if new_matches.any (fun m => similarity jw track m ≥ 4/5) then
        ([query], acc)
      else
        let (issued, final) := searchLoop jw svc track rest acc
        (query :: issued, final)

/-- The queries actually issued by `DefaultSearcherStrategy.search`. -/
def search_issued (jw : String → String → ℚ) (svc : SearchService Q) (track : Track) :
    List Q :=
  (searchLoop jw svc track svc.queries []).1

/-- `DefaultSearcherStrategy.search` from `src/unitunes/searcher.py`: run the
query loop, sort the accumulated matches by similarity to the input track in
descending order (`matches.sort(key=..., reverse=True)`, a stable sort), and
return the first `limit` of them (the source's default for `limit` is 3). -/
def search (jw : String → String → ℚ) (svc : SearchService Q) (track : Track)
    (limit : Nat) : List Track :=
  let acc := (searchLoop jw svc track svc.queries []).2
  (acc.mergeSort (fun t1 t2 => similarity jw track t2 ≤ similarity jw track t1)).take
    limit

/-! ### `src/unitunes/pull_playlist.py` and `PlaylistManager.pull_playlist`

The pull reconciliation is embedded for one pullable service with one linked
playlist URI, which is exactly one pass of the nested loop of
`PlaylistManager.pull_playlist` (`src/unitunes/main.py`, lines 199-234)
followed by the epilogue (lines 236-242).  A service is represented by the
data this pass consumes: its `ServiceType`, the results of `pull_metadata`
and `pull_tracks` for the linked URI, and its `Checkable` capability. -/

/-- `PlaylistDetails`.
Modelled from the spec: the class is referenced from
`unitunes.playlist` by the service adapters but its definition is not under
`src/`; per §4.3/§6 of the spec, playlist metadata consists of the name and
the description. -/
structure PlaylistDetails where
  name : String
  description : String
deriving DecidableEq, Repr

/-- `Playlist` from `src/unitunes/playlist.py`, restricted to the fields the
pull pass reads or writes.  (The per-service URI map `uris` only selects
which services and remote playlists are iterated; for the single-service,
single-URI pass embedded here it plays no further role.) -/
structure Playlist where
  name : String
  description : String
  tracks : List Track
deriving DecidableEq, Repr

/-- `Playlist.merge_metadata`.
Modelled from the spec: the method is called at
`src/unitunes/main.py` line 206 but is not defined under `src/`; per §4.3 of
the spec the remote playlist metadata (name and description) is merged into
the local playlist, and the track list is not touched. -/
def Playlist.merge_metadata (pl : Playlist) (md : PlaylistDetails) : Playlist :=
  { pl with name := md.name, description := md.description }

/-- The data of one pullable service for one linked playlist URI:
`type` is `service.type`, `remoteTracks` is `service.pull_tracks(uri)`,
`metadata` is `service.pull_metadata(uri)`, `checkable` says whether
`isinstance(service, Checkable)`, and `is_uri_alive` is the liveness check. -/
structure ServiceData where
  type : ServiceType
  remoteTracks : List Track
  metadata : PlaylistDetails
  checkable : Bool
  is_uri_alive : URIBase → Bool

/-- The inner `tracks_to_uris` helper of `get_missing_uris`
(`src/unitunes/pull_playlist.py`): all URIs of a list of tracks. -/
def tracks_to_uris (tracks : List Track) : List URIBase :=
  (tracks.map Track.uris).flatten

/-- `get_missing_uris` from `src/unitunes/pull_playlist.py`: the URIs of the
current tracks on the given service that do not appear among the URIs of the
new (remote) tracks. -/
def get_missing_uris (service : ServiceType) (current new : List Track) :
    List URIBase :=
  let uris_on_service := (tracks_to_uris current).filter
    (fun uri => uri.service = service)
  let remote := tracks_to_uris new
  uris_on_service.filter (fun uri => uri ∉ remote)

/-- `get_invalid_uris` from `src/unitunes/pull_playlist.py`: the URIs the
service's `Checkable` liveness check reports dead. -/
def get_invalid_uris (service : ServiceData) (uris : List URIBase) : List URIBase :=
  uris.filter (fun uri => service.checkable && !(service.is_uri_alive uri))

/-- The inner `fix_track_uri` of `add_changed_uris`: if some remote track
matches this track (`are_same` at the default threshold `0.7`), and the first
such match's first URI is not already on the track, drop the track's URIs on
that URI's service and append it.  `matches[0].uris[0]` raises `IndexError`
when the matching remote track has no URIs. -/
def fix_track_uri (jw : String → String → ℚ) (remote_tracks : List Track)
    (track : Track) : Except String Track :=
  match remote_tracks.filter (fun t => are_same jw t track (7/10)) with
  | [] => .ok track
  | m :: _ =>
      match m.uris with
      | [] => .error "IndexError: list index out of range"
      | new_uri :: _ =>
          if new_uri ∈ track.uris then .ok track
          else .ok { track with
            uris := track.uris.filter (fun u => u.service ≠ new_uri.service)
              ++ [new_uri] }

/-- `add_changed_uris` from `src/unitunes/pull_playlist.py`: apply
`fix_track_uri` to every current track. -/
def add_changed_uris (jw : String → String → ℚ) (remote_tracks : List Track) :
    List Track → Except String (List Track)
  | [] => .ok []
  | t :: rest =>
      match fix_track_uri jw remote_tracks t with
      | .error e => .error e
      | .ok t' =>
          match add_changed_uris jw remote_tracks rest with
          | .error e => .error e
          | .ok rest' => .ok (t' :: rest')

/-- `merge_new_tracks` from `src/unitunes/pull_playlist.py`: merge each new
track into every current track it matches (`are_same` at the default
threshold `0.7`), or append it when nothing matches. -/
def merge_new_tracks (jw : String → String → ℚ) (tracks new_tracks : List Track) :
    List Track :=
  new_tracks.foldl
    (fun acc track =>
      if acc.any (fun t => are_same jw t track (7/10)) then
        acc.map (fun t => if are_same jw t track (7/10) then t.merge track else t)
      else acc ++ [track])
    tracks

/-- `remove_uris` from `src/unitunes/pull_playlist.py`.  For every
(track, uri) pair with the URI present on the track, the source executes
`track.bad_uris.append(uri)`; since the `Track` model
(`src/unitunes/track.py`, lines 43-48) declares no `bad_uris` field, that
attribute access raises `AttributeError`.  When no pair matches, the loop
does nothing. -/
def remove_uris (current_tracks : List Track) (uris : List URIBase) :
    Except String (List Track) :=
  if current_tracks.any (fun t => uris.any (fun uri => uri ∈ t.uris)) then
    .error "AttributeError: 'Track' object has no attribute 'bad_uris'"
  else .ok current_tracks

/-- `remove_tracks` from `src/unitunes/pull_playlist.py`.  For every missing
URI with a track still carrying it, the source executes
`t.bad_uris.append(missing_uri)`, which raises `AttributeError` for the same
reason as in `remove_uris`. -/
def remove_tracks (current_tracks : List Track) (missing : List URIBase) :
    Except String (List Track) :=
  if missing.any (fun uri => current_tracks.any (fun t => uri ∈ t.uris)) then
    .error "AttributeError: 'Track' object has no attribute 'bad_uris'"
  else .ok current_tracks

/-- `tracks_match_and_on_service` from `src/unitunes/pull_playlist.py`. -/
def tracks_match_and_on_service (jw : String → String → ℚ) (service : ServiceType)
    (t1 t2 : Track) : Bool :=
  are_same jw t1 t2 (7/10) && t1.is_on_service service && t2.is_on_service service

/-- `tracks_to_add` from `src/unitunes/pull_playlist.py`: the new (remote)
tracks on this service with no matching-and-on-service counterpart among the
current tracks. -/
def tracks_to_add (jw : String → String → ℚ) (service : ServiceType)
    (current new : List Track) : List Track :=
  (new.filter (fun track => track.is_on_service service)).filter
    (fun track => !(current.any (fun t => tracks_match_and_on_service jw service track t)))

/-- The outcome of one pull pass: the updated playlist and the `new_tracks`,
`missing_uris` and `invalid_uris` lists the pass computed. -/
structure PullOutcome where
  playlist : Playlist
  new_tracks : List Track
  missing_uris : List URIBase
  invalid_uris : List URIBase
deriving Repr

/-- `PlaylistManager.pull_playlist` from `src/unitunes/main.py`, specialized
to one pullable service with one linked playlist URI (one pass of the nested
loop, lines 199-234, followed by the epilogue, lines 236-242):
merge the remote metadata, record `tracks_to_add`, repair changed URIs,
compute the missing URIs and the invalid (dead) ones among them, then
`remove_uris` for the invalid URIs, `merge_new_tracks` for the new tracks and
`remove_tracks` for the still-missing URIs. -/
def pull_playlist (jw : String → String → ℚ) (service : ServiceData)
    (playlist : Playlist) : Except String PullOutcome :=
  let playlist := playlist.merge_metadata service.metadata
  let remote_tracks := service.remoteTracks
  let new_tracks := tracks_to_add jw service.type playlist.tracks remote_tracks
  match add_changed_uris jw remote_tracks playlist.tracks with
  | .error e => .error e
  | .ok tracks =>
      let new_missing := get_missing_uris service.type tracks remote_tracks
      let invalid_uris := get_invalid_uris service new_missing
      let missing_uris := new_missing.filter (fun uri => uri ∉ invalid_uris)
      match remove_uris tracks invalid_uris with
      | .error e => .error e
      | .ok tracks =>
          let tracks := merge_new_tracks jw tracks new_tracks
          match remove_tracks tracks missing_uris with
          | .error e => .error e
          | .ok tracks =>
              .ok ⟨{ playlist with tracks := tracks }, new_tracks,
                missing_uris, invalid_uris⟩

/-! ### Lemmas about folded maxima

`pairwise_max` is a nested `foldl` of `max`; these lemmas characterize such
folds: the accumulator never decreases, the fold is bounded by any common
upper bound, and every visited value is a lower bound of the result. -/

theorem foldl_ge_init (step : ℚ → α → ℚ) (hstep : ∀ m x, m ≤ step m x) :
    ∀ (l : List α) (m : ℚ), m ≤ l.foldl step m := by
  intro l
  induction l with
  | nil => intro m; exact le_refl m
  | cons x t ih => intro m; exact le_trans (hstep m x) (ih (step m x))

theorem foldl_le_bound (step : ℚ → α → ℚ) (c : ℚ) :
    ∀ (l : List α) (m : ℚ), (∀ m x, x ∈ l → m ≤ c → step m x ≤ c) → m ≤ c →
      l.foldl step m ≤ c := by
  intro l
  induction l with
  | nil => intro m _ hm; exact hm
  | cons x t ih =>
      intro m hstep hm
      exact ih (step m x) (fun m y hy hm => hstep m y (List.mem_cons_of_mem x hy) hm)
        (hstep m x (List.mem_cons_self x t) hm)

theorem foldl_mono_init (step : ℚ → α → ℚ)
    (hmono : ∀ x m m', m ≤ m' → step m x ≤ step m' x) :
    ∀ (l : List α) (m m' : ℚ), m ≤ m' → l.foldl step m ≤ l.foldl step m' := by
  intro l
  induction l with
  | nil => intro m m' h; exact h
  | cons x t ih => intro m m' h; exact ih (step m x) (step m' x) (hmono x m m' h)

theorem le_foldl_max (h : α → ℚ) :
    ∀ (l : List α) (m : ℚ) (x : α), x ∈ l →
      h x ≤ l.foldl (fun mx j => max mx (h j)) m := by
  intro l
  induction l with
  | nil => intro m x hx; cases hx
  | cons y t ih =>
      intro m x hx
      cases hx with
      | head =>
          exact le_trans (le_max_right m _)
            (foldl_ge_init _ (fun m j => le_max_left m (h j)) t _)
      | tail _ hmem => exact ih _ x hmem

theorem pairwise_max_nonneg (f : α → β → ℚ) (a : List α) (b : List β) :
    0 ≤ pairwise_max f a b :=
  foldl_ge_init _
    (fun m i => foldl_ge_init _ (fun m j => le_max_left m (f i j)) b m) a 0

theorem pairwise_max_le (f : α → β → ℚ) (a : List α) (b : List β) (c : ℚ)
    (hc : 0 ≤ c) (h : ∀ i ∈ a, ∀ j ∈ b, f i j ≤ c) :
    pairwise_max f a b ≤ c := by
  unfold pairwise_max
  refine foldl_le_bound _ c a 0 ?_ hc
  intro m i hi hm
  refine foldl_le_bound _ c b m ?_ hm
  intro m' j hj hm'
  exact max_le hm' (h i hi j hj)

/-- The step function of the outer fold of `pairwise_max` is monotone in the
accumulator. -/
theorem pairwise_max_step_mono (f : α → β → ℚ) (b : List β) (i : α)
    {m m' : ℚ} (h : m ≤ m') :
    b.foldl (fun mx j => max mx (f i j)) m ≤ b.foldl (fun mx j => max mx (f i j)) m' :=
  foldl_mono_init _ (fun j m m' h => max_le_max h (le_refl (f i j))) b m m' h

theorem le_pairwise_max (f : α → β → ℚ) {a : List α} {b : List β} {i : α} {j : β}
    (hi : i ∈ a) (hj : j ∈ b) : f i j ≤ pairwise_max f a b := by
  unfold pairwise_max
  induction a with
  | nil => cases hi
  | cons y t ih =>
      simp only [List.foldl_cons]
      cases hi with
      | head =>
          refine le_trans (le_foldl_max _ b 0 j hj) ?_
          exact foldl_ge_init _
            (fun m x => foldl_ge_init _ (fun m j' => le_max_left m (f x j')) b m) t _
      | tail _ hmem =>
          refine le_trans (ih hmem) ?_
          refine foldl_mono_init _ ?_ t 0 _ ?_
          · intro x m m' h; exact pairwise_max_step_mono f b x h
          · exact foldl_ge_init _ (fun m j' => le_max_left m (f y j')) b 0

/-! ### Keys of the feature dictionary -/

theorem name_feature_keys (jw : String → String → ℚ) (t1 t2 : Track) :
    ∀ p ∈ name_feature jw t1 t2, p.1 = "name" := by
  unfold name_feature
  intro p hp
  simp at hp
  simp [hp]

theorem artists_feature_keys (jw : String → String → ℚ) (t1 t2 : Track) :
    ∀ p ∈ artists_feature jw t1 t2, p.1 = "artists" := by
  unfold artists_feature
  intro p hp
  revert hp
  split <;> intro hp <;> simp at hp <;> simp [hp]

theorem album_feature_keys (jw : String → String → ℚ) (t1 t2 : Track) :
    ∀ p ∈ album_feature jw t1 t2, p.1 = "album" := by
  unfold album_feature
  intro p hp
  revert hp
  split <;> intro hp <;> simp at hp <;> simp [hp]

theorem length_feature_keys (t1 t2 : Track) :
    ∀ p ∈ length_feature t1 t2, p.1 = "length" := by
  unfold length_feature
  rcases t1.length with _ | l1 <;> rcases t2.length with _ | l2 <;> intro p hp <;>
    first
      | cases hp
      | (revert hp; split <;> intro hp <;> simp at hp <;> simp [hp])

/-- Every entry of the feature dictionary carries one of the four known keys,
whose weights are 50, 30 or 20. -/
theorem feature_scores_weights (jw : String → String → ℚ) (t1 t2 : Track) :
    ∀ p ∈ feature_scores jw t1 t2,
      weights p.1 = 50 ∨ weights p.1 = 30 ∨ weights p.1 = 20 := by
  intro p hp
  simp only [feature_scores, List.mem_append] at hp
  rcases hp with ((h | h) | h) | h
  · rw [name_feature_keys jw t1 t2 p h]; left; rfl
  · rw [artists_feature_keys jw t1 t2 p h]; right; left; rfl
  · rw [album_feature_keys jw t1 t2 p h]; right; right; rfl
  · rw [length_feature_keys t1 t2 p h]; right; right; rfl

/-! ### Shared concrete instances for witnesses and counterexamples -/

/-- A trivial string metric used to instantiate the `jw` parameter in closed
witnesses and counterexamples whose outcome does not depend on the metric's
values (URI identity and the keyword veto decide them). -/
def jw0 : String → String → ℚ := fun _ _ => 0

/-! ### The matcher claims -/

/-- The general keyword-veto lemma behind claim C5: if exactly one of the two
lowercased strings contains one of the `special_terms`,
`normalized_string_similarity` is 0 whatever the string metric is. -/
theorem nss_veto (jw : String → String → ℚ) (s1 s2 : String)
    (h : ∃ term ∈ special_terms, strIn term (pyLower s1) ≠ strIn term (pyLower s2)) :
    normalized_string_similarity jw s1 s2 = 0 := by
  unfold normalized_string_similarity
  rw [if_pos]
  obtain ⟨term, hterm, hne⟩ := h
  refine List.any_eq_true.2 ⟨term, hterm, ?_⟩
  revert hne
  cases strIn term (pyLower s1) <;> cases strIn term (pyLower s2) <;> simp

/-- C1: if the two tracks' URI lists share an element,
`DefaultMatcherStrategy.similarity` returns exactly 1, whatever the string
metric, names, artists, albums and lengths are. -/
theorem c1_shared_uri_similarity_one (jw : String → String → ℚ) (a b : Track)
    (h : ∃ u ∈ a.uris, u ∈ b.uris) : similarity jw a b = 1 := by
  unfold similarity
  rw [if_pos]
  simpa only [List.any_eq_true, decide_eq_true_eq] using h

/-- Witness for C1: two tracks with different names sharing the Spotify URI
`abc` have similarity 1. -/
theorem c1_shared_uri_similarity_one_witness :
    similarity jw0
      ⟨⟨"x", []⟩, [], [], none, [SpotifyTrackURI.from_uri "abc"]⟩
      ⟨⟨"y", []⟩, [], [], none, [SpotifyTrackURI.from_uri "abc"]⟩ = 1 :=
  c1_shared_uri_similarity_one jw0 _ _
    ⟨SpotifyTrackURI.from_uri "abc", by simp, by simp⟩

/-- The track `Track(name="Song")` of claim C5. -/
def songTrack : Track := ⟨⟨"Song", []⟩, [], [], none, []⟩

/-- The track `Track(name="Song (Remix)")` of claim C5. -/
def songRemixTrack : Track := ⟨⟨"Song (Remix)", []⟩, [], [], none, []⟩

/-- C5: if exactly one of two name strings contains one of the variant
keywords (`instrumental, remix, cover, live, version, edit`), their
normalized string similarity is 0; concretely, `Track(name="Song")` and
`Track(name="Song (Remix)")` (no shared URIs, artists, albums or lengths)
have similarity below 0.7, so `are_same` is false at the default
threshold. -/
theorem c5_variant_keyword_veto (jw : String → String → ℚ) (s1 s2 : String)
    (h : ∃ term ∈ special_terms, strIn term (pyLower s1) ≠ strIn term (pyLower s2)) :
    normalized_string_similarity jw s1 s2 = 0 ∧
    similarity jw songTrack songRemixTrack < 7/10 ∧
    are_same jw songTrack songRemixTrack (7/10) = false := by
  have hnss : normalized_string_similarity jw "Song" "Song (Remix)" = 0 :=
    nss_veto jw _ _ ⟨"remix", by decide, by decide⟩
  have hsim : similarity jw songTrack songRemixTrack = 0 := by
    simp [similarity, feature_scores, name_feature, artists_feature, album_feature,
      length_feature, aliased_string_similarity, pairwise_max,
      songTrack, songRemixTrack, AliasedString.all_values, hnss, weights]
  refine ⟨nss_veto jw s1 s2 h, ?_, ?_⟩
  · rw [hsim]; norm_num
  · simp [are_same, hsim]

/-- Witness for C5, at `s1 = "Song"`, `s2 = "Song (Remix)"`. -/
theorem c5_variant_keyword_veto_witness :
    normalized_string_similarity jw0 "Song" "Song (Remix)" = 0 ∧
    similarity jw0 songTrack songRemixTrack < 7/10 ∧
    are_same jw0 songTrack songRemixTrack (7/10) = false :=
  c5_variant_keyword_veto jw0 "Song" "Song (Remix)" ⟨"remix", by decide, by decide⟩

/-- A track with an empty artist list (claim C6). -/
def c6TrackA : Track := ⟨⟨"Song", []⟩, [], [], some 100, []⟩

/-- A track with one artist (claim C6). -/
def c6TrackB : Track := ⟨⟨"Song", []⟩, [], [⟨"Artist", []⟩], some 100, []⟩

/-- Counterexample to C6 as stated: for tracks with no shared URI where one
artist list is empty, the `artists` feature is *not* scored (so its weight 30
is not part of the weighted average): the feature dictionary contains only
`name` and `length`. -/
theorem c6_counterexample :
    "artists" ∉ (feature_scores jw0 c6TrackA c6TrackB).map Prod.fst ∧
    (feature_scores jw0 c6TrackA c6TrackB).map Prod.fst = ["name", "length"] := by
  have h : (feature_scores jw0 c6TrackA c6TrackB).map Prod.fst = ["name", "length"] := by
    simp [feature_scores, name_feature, artists_feature, album_feature,
      length_feature, c6TrackA, c6TrackB]
  exact ⟨by rw [h]; simp, h⟩

/-- C6 (amended): when either track's artist list is empty, the `artists`
feature is omitted entirely from `DefaultMatcherStrategy.similarity`'s
weighted average (the guard requires both lists non-empty), and the neutral
score 0.5 lives only inside `artists_similarity`, which `similarity` then
never calls. -/
theorem c6_amended_artists_feature_omitted (jw : String → String → ℚ)
    (t1 t2 : Track) (h : t1.artists = [] ∨ t2.artists = []) :
    "artists" ∉ (feature_scores jw t1 t2).map Prod.fst ∧
    artists_similarity jw t1.artists t2.artists = 1/2 := by
  have hseg : artists_feature jw t1 t2 = [] := by
    unfold artists_feature
    rcases h with h | h <;> simp [h]
  constructor
  · intro hmem
    simp only [feature_scores, hseg, List.map_append, List.append_nil,
      List.mem_append] at hmem
    rcases hmem with (h1 | h2) | h3
    · obtain ⟨p, hp, hfst⟩ := List.mem_map.1 h1
      rw [name_feature_keys jw t1 t2 p hp] at hfst
      simp at hfst
    · obtain ⟨p, hp, hfst⟩ := List.mem_map.1 h2
      rw [album_feature_keys jw t1 t2 p hp] at hfst
      simp at hfst
    · obtain ⟨p, hp, hfst⟩ := List.mem_map.1 h3
      rw [length_feature_keys t1 t2 p hp] at hfst
      simp at hfst
  · unfold artists_similarity
    rw [if_pos]
    rcases h with h | h <;> simp [h]

/-- Witness for C6 (amended), at the concrete tracks of the
counterexample. -/
theorem c6_amended_artists_feature_omitted_witness :
    "artists" ∉ (feature_scores jw0 c6TrackA c6TrackB).map Prod.fst ∧
    artists_similarity jw0 c6TrackA.artists c6TrackB.artists = 1/2 :=
  c6_amended_artists_feature_omitted jw0 c6TrackA c6TrackB (Or.inl (by simp [c6TrackA]))

/-- The value of `similarity` when no URI is shared: the re-normalized
weighted mean over the present features (the dictionary is never empty, since
the `name` feature is always present). -/
theorem similarity_eq_div (jw : String → String → ℚ) (t1 t2 : Track)
    (hno : ¬((t1.uris.any fun uri1 => decide (uri1 ∈ t2.uris)) = true)) :
    similarity jw t1 t2 =
      ((feature_scores jw t1 t2).map (fun p => p.2 * weights p.1)).sum
        / ((feature_scores jw t1 t2).map (fun p => weights p.1)).sum := by
  unfold similarity
  rw [if_neg hno]
  have hne : (feature_scores jw t1 t2).isEmpty = false := by
    simp [feature_scores, name_feature]
  simp only [hne]
  simp

/-- Every weight attached to a present feature is nonnegative. -/
theorem feature_scores_weights_nonneg (jw : String → String → ℚ) (t1 t2 : Track) :
    ∀ p ∈ feature_scores jw t1 t2, 0 ≤ weights p.1 := by
  intro p hp
  rcases feature_scores_weights jw t1 t2 p hp with h | h | h <;> rw [h] <;> norm_num

/-- C8: whatever values the individual feature scorers return, as long as
each lies in `[0,1]`, `DefaultMatcherStrategy.similarity` lies in `[0,1]`
(so the source's `assert 0 <= similarity <= 1` never fails). -/
theorem c8_similarity_in_unit_interval (jw : String → String → ℚ) (t1 t2 : Track)
    (h : ∀ p ∈ feature_scores jw t1 t2, 0 ≤ p.2 ∧ p.2 ≤ 1) :
    0 ≤ similarity jw t1 t2 ∧ similarity jw t1 t2 ≤ 1 := by
  by_cases huri : (t1.uris.any fun uri1 => decide (uri1 ∈ t2.uris)) = true
  · unfold similarity
    rw [if_pos huri]
    norm_num
  · rw [similarity_eq_div jw t1 t2 huri]
    set fs := feature_scores jw t1 t2 with hfs
    have hW : (0 : ℚ) < (fs.map (fun p => weights p.1)).sum := by
      refine List.sum_pos _ ?_ ?_
      · intro w hw
        obtain ⟨p, hp, hpw⟩ := List.mem_map.1 hw
        rcases feature_scores_weights jw t1 t2 p hp with h' | h' | h' <;>
          rw [← hpw, h'] <;> norm_num
      · simp [hfs, feature_scores, name_feature]
    have hS0 : (0 : ℚ) ≤ (fs.map (fun p => p.2 * weights p.1)).sum := by
      refine List.sum_nonneg ?_
      intro x hx
      obtain ⟨p, hp, hpx⟩ := List.mem_map.1 hx
      rw [← hpx]
      exact mul_nonneg (h p hp).1 (feature_scores_weights_nonneg jw t1 t2 p hp)
    have hSW : (fs.map (fun p => p.2 * weights p.1)).sum
        ≤ (fs.map (fun p => weights p.1)).sum := by
      refine List.sum_le_sum ?_
      intro p hp
      exact mul_le_of_le_one_left (feature_scores_weights_nonneg jw t1 t2 p hp)
        (h p hp).2
    exact ⟨div_nonneg hS0 hW.le, (div_le_one hW).2 hSW⟩

/-- Witness for C8: a concrete pair of tracks (equal name, no URIs) whose
only feature score is the name score 0 under the trivial metric. -/
theorem c8_similarity_in_unit_interval_witness :
    0 ≤ similarity jw0 songTrack songTrack ∧ similarity jw0 songTrack songTrack ≤ 1 := by
  refine c8_similarity_in_unit_interval jw0 songTrack songTrack ?_
  intro p hp
  simp [feature_scores, name_feature, artists_feature, album_feature, length_feature,
    songTrack, aliased_string_similarity, AliasedString.all_values, pairwise_max,
    normalized_string_similarity, jw0] at hp
  rw [hp]
  norm_num

/-! ### Symmetry of the matcher (claim C10) -/

theorem pairwise_max_symm (f : α → α → ℚ) (hf : ∀ x y, f x y = f y x)
    (a b : List α) : pairwise_max f a b = pairwise_max f b a := by
  refine le_antisymm ?_ ?_ <;>
    · refine pairwise_max_le _ _ _ _ (pairwise_max_nonneg _ _ _) ?_
      intro i hi j hj
      rw [hf i j]
      exact le_pairwise_max _ hj hi

theorem nss_symm (jw : String → String → ℚ) (hjw : ∀ s t, jw s t = jw t s)
    (s1 s2 : String) :
    normalized_string_similarity jw s1 s2 = normalized_string_similarity jw s2 s1 := by
  unfold normalized_string_similarity
  have hcond : (fun term => xor (strIn term (pyLower s1)) (strIn term (pyLower s2)))
      = (fun term => xor (strIn term (pyLower s2)) (strIn term (pyLower s1))) :=
    funext fun t => Bool.xor_comm _ _
  rw [hcond, hjw (pyLower s1) (pyLower s2)]

theorem ass_symm (jw : String → String → ℚ) (hjw : ∀ s t, jw s t = jw t s)
    (s1 s2 : AliasedString) :
    aliased_string_similarity jw s1 s2 = aliased_string_similarity jw s2 s1 :=
  pairwise_max_symm _ (nss_symm jw hjw) _ _

theorem artists_similarity_symm (jw : String → String → ℚ)
    (hjw : ∀ s t, jw s t = jw t s) (a1 a2 : List AliasedString) :
    artists_similarity jw a1 a2 = artists_similarity jw a2 a1 := by
  unfold artists_similarity
  by_cases h : a1.length = 0 ∨ a2.length = 0
  · rw [if_pos h, if_pos (Or.symm h)]
  · rw [if_neg h, if_neg (fun hc => h (Or.symm hc))]
    exact pairwise_max_symm _ (ass_symm jw hjw) _ _

theorem length_similarity_symm (l1 l2 : Int) :
    length_similarity l1 l2 = length_similarity l2 l1 := by
  unfold length_similarity
  rw [abs_sub_comm]

theorem feature_scores_symm (jw : String → String → ℚ)
    (hjw : ∀ s t, jw s t = jw t s) (t1 t2 : Track) :
    feature_scores jw t1 t2 = feature_scores jw t2 t1 := by
  unfold feature_scores
  have hname : name_feature jw t1 t2 = name_feature jw t2 t1 := by
    unfold name_feature
    rw [ass_symm jw hjw]
  have hartists : artists_feature jw t1 t2 = artists_feature jw t2 t1 := by
    unfold artists_feature
    by_cases h : t1.artists ≠ [] ∧ t2.artists ≠ []
    · rw [if_pos h, if_pos (And.symm h), artists_similarity_symm jw hjw]
    · rw [if_neg h, if_neg (fun hc => h (And.symm hc))]
  have halbum : album_feature jw t1 t2 = album_feature jw t2 t1 := by
    unfold album_feature
    by_cases h : t1.albums ≠ [] ∧ t2.albums ≠ []
    · rw [if_pos h, if_pos (And.symm h)]
      rw [show album_similarity jw t1.albums t2.albums
          = album_similarity jw t2.albums t1.albums from
        pairwise_max_symm _ (ass_symm jw hjw) _ _]
    · rw [if_neg h, if_neg (fun hc => h (And.symm hc))]
  have hlength : length_feature t1 t2 = length_feature t2 t1 := by
    unfold length_feature
    rcases t1.length with _ | l1 <;> rcases t2.length with _ | l2 <;> try rfl
    dsimp only
    by_cases h : l1 ≠ 0 ∧ l2 ≠ 0
    · rw [if_pos h, if_pos (And.symm h), length_similarity_symm]
    · rw [if_neg h, if_neg (fun hc => h (And.symm hc))]
  rw [hname, hartists, halbum, hlength]

theorem shared_uri_any_symm (xs ys : List URIBase) :
    (xs.any fun u => decide (u ∈ ys)) = (ys.any fun u => decide (u ∈ xs)) := by
  have hiff : (xs.any fun u => decide (u ∈ ys)) = true
      ↔ (ys.any fun u => decide (u ∈ xs)) = true := by
    simp only [List.any_eq_true, decide_eq_true_eq]
    constructor
    · rintro ⟨u, hu, hv⟩; exact ⟨u, hv, hu⟩
    · rintro ⟨u, hu, hv⟩; exact ⟨u, hv, hu⟩
  rcases h1 : xs.any fun u => decide (u ∈ ys) with _ | _
  · rcases h2 : ys.any fun u => decide (u ∈ xs) with _ | _
    · rfl
    · exact absurd (hiff.2 h2) (by rw [h1]; simp)
  · exact (hiff.1 h1).symm

/-- C10: `DefaultMatcherStrategy.similarity` is symmetric (given a symmetric
base string metric, which the source's Jaro-Winkler metric is), so `are_same`
is a symmetric relation at every threshold. -/
theorem c10_similarity_symmetric (jw : String → String → ℚ)
    (hjw : ∀ s t, jw s t = jw t s) (a b : Track) (theshold : ℚ) :
    similarity jw a b = similarity jw b a ∧
    are_same jw a b theshold = are_same jw b a theshold := by
  have hsim : similarity jw a b = similarity jw b a := by
    unfold similarity
    rw [shared_uri_any_symm a.uris b.uris, feature_scores_symm jw hjw a b]
  exact ⟨hsim, by unfold are_same; rw [hsim]⟩

/-- Witness for C10, at the trivial (symmetric) metric and the two concrete
tracks of claim C5. -/
theorem c10_similarity_symmetric_witness :
    similarity jw0 songTrack songRemixTrack = similarity jw0 songRemixTrack songTrack ∧
    are_same jw0 songTrack songRemixTrack (7/10)
      = are_same jw0 songRemixTrack songTrack (7/10) :=
  c10_similarity_symmetric jw0 (fun _ _ => rfl) songTrack songRemixTrack (7/10)

/-! ### The URI claims -/

/-- Counterexample to C9 as stated: two `SpotifyTrackURI` values with equal
`service`, `type` and `uri` but different `url` fields are *not* equal
(pydantic v1 equality compares the dict of all declared fields, and `url` is
a declared field), so URI equality is not determined by service+kind+id
alone. -/
theorem c9_counterexample :
    (URIBase.mk .spotify .track "abc" "https://open.spotify.com/track/abc"
      ≠ URIBase.mk .spotify .track "abc" "elsewhere") ∧
    (URIBase.mk .spotify .track "abc" "https://open.spotify.com/track/abc").service
      = (URIBase.mk .spotify .track "abc" "elsewhere").service ∧
    (URIBase.mk .spotify .track "abc" "https://open.spotify.com/track/abc").type
      = (URIBase.mk .spotify .track "abc" "elsewhere").type ∧
    (URIBase.mk .spotify .track "abc" "https://open.spotify.com/track/abc").uri
      = (URIBase.mk .spotify .track "abc" "elsewhere").uri := by
  refine ⟨?_, rfl, rfl, rfl⟩
  intro h
  simpa using congrArg URIBase.url h

/-- C9 (amended): URI equality holds iff *all four* declared fields agree —
`service`, `type`, `uri` and also `url`; for canonically constructed URIs
(`from_uri`, where `url` is derived from `uri`), equality does reduce to
service+kind+id, and in particular `from_uri` is injective for every concrete
variant. -/
theorem c9_amended_uri_equality (u1 u2 : URIBase) :
    (u1 = u2 ↔ u1.service = u2.service ∧ u1.type = u2.type
      ∧ u1.uri = u2.uri ∧ u1.url = u2.url) ∧
    (∀ s t : String, SpotifyTrackURI.from_uri s = SpotifyTrackURI.from_uri t ↔ s = t) ∧
    (∀ s t : String, SpotifyPlaylistURI.from_uri s = SpotifyPlaylistURI.from_uri t ↔ s = t) ∧
    (∀ s t : String, YtmTrackURI.from_uri s = YtmTrackURI.from_uri t ↔ s = t) ∧
    (∀ s t : String, YtmPlaylistURI.from_uri s = YtmPlaylistURI.from_uri t ↔ s = t) ∧
    (∀ s t : String, MB_RECORDING_URI.from_uri s = MB_RECORDING_URI.from_uri t ↔ s = t) ∧
    (∀ s t : String, MB_RELEASE_URI.from_uri s = MB_RELEASE_URI.from_uri t ↔ s = t) := by
  refine ⟨?_, ?_, ?_, ?_, ?_, ?_, ?_⟩
  · constructor
    · rintro rfl; exact ⟨rfl, rfl, rfl, rfl⟩
    · rintro ⟨h1, h2, h3, h4⟩
      cases u1; cases u2
      simp_all
  all_goals
    intro s t
    constructor
    · intro h
      simpa using congrArg URIBase.uri h
    · rintro rfl; rfl

/-- C3: the generic URL-dispatch entry point `URI_from_url` never returns a
URI: the `all_uri_types` list it iterates begins with a literal `...`
(`Ellipsis`) left in the Python list (`src/unitunes/uri.py`, line 220), and
attribute lookup `cls.valid_url` on `Ellipsis` raises `AttributeError` on the
first iteration — for every URL, including each variant's canonical URL and
the liked-songs sentinel.  Meanwhile the per-variant conversions themselves
do round-trip, as the remaining conjuncts show. -/
theorem c3_uri_from_url_raises :
    URI_from_url "https://open.spotify.com/track/abc"
      = .error "AttributeError: 'ellipsis' object has no attribute 'valid_url'" ∧
    URI_from_url "spotify:liked_songs"
      = .error "AttributeError: 'ellipsis' object has no attribute 'valid_url'" ∧
    (SpotifyPlaylistURI.from_uri "Liked Songs").url = "spotify:liked_songs" ∧
    SpotifyPlaylistURI.from_url "spotify:liked_songs"
      = SpotifyPlaylistURI.from_uri "Liked Songs" ∧
    SpotifyTrackURI.from_url (SpotifyTrackURI.from_uri "abc").url
      = SpotifyTrackURI.from_uri "abc" ∧
    SpotifyPlaylistURI.from_url (SpotifyPlaylistURI.from_uri "pid").url
      = SpotifyPlaylistURI.from_uri "pid" ∧
    YtmTrackURI.from_url (YtmTrackURI.from_uri "vid").url
      = YtmTrackURI.from_uri "vid" ∧
    YtmPlaylistURI.from_url (YtmPlaylistURI.from_uri "lid").url
      = YtmPlaylistURI.from_uri "lid" ∧
    MB_RECORDING_URI.from_url (MB_RECORDING_URI.from_uri "rid").url
      = MB_RECORDING_URI.from_uri "rid" ∧
    MB_RELEASE_URI.from_url (MB_RELEASE_URI.from_uri "aid").url
      = MB_RELEASE_URI.from_uri "aid" :=
  ⟨rfl, rfl, rfl, rfl, rfl, rfl, rfl, rfl, rfl, rfl⟩

/-! ### Claim C2: moving a dead URI to `bad_uris` -/

/-- The dead Spotify URI of claim C2's scenario. -/
def c2DeadUri : URIBase := SpotifyTrackURI.from_uri "dead"

/-- A stored track whose only URI is the dead one. -/
def c2Track : Track := ⟨⟨"t", []⟩, [], [], none, [c2DeadUri]⟩

/-- The service of claim C2's scenario: the remote playlist no longer
contains the track (`pull_tracks` returns `[]`), the service is `Checkable`,
and the liveness check reports every URI dead. -/
def c2Service : ServiceData := ⟨.spotify, [], ⟨"pl", ""⟩, true, fun _ => false⟩

/-- The stored playlist of claim C2's scenario. -/
def c2Playlist : Playlist := ⟨"pl", "", [c2Track]⟩

/-- C2, evaluated at the failing input: pulling a playlist whose stored URI
has disappeared from the remote and is reported dead does *not* move the URI
to `bad_uris` — it raises `AttributeError`, because `remove_uris`
(`src/unitunes/pull_playlist.py`, line 91) appends to `track.bad_uris` but
the `Track` model (`src/unitunes/track.py`, lines 43-48) declares no
`bad_uris` field. -/
theorem c2_pull_dead_uri_raises :
    pull_playlist jw0 c2Service c2Playlist
      = .error "AttributeError: 'Track' object has no attribute 'bad_uris'" := rfl

/-! ### The searcher claim (C4) -/

/-- Merging results while skipping exact duplicates preserves `Nodup`. -/
theorem foldl_insert_absent_nodup (new : List Track) :
    ∀ acc : List Track, acc.Nodup →
      (new.foldl (fun ms m => if m ∈ ms then ms else ms ++ [m]) acc).Nodup := by
  induction new with
  | nil => intro acc h; exact h
  | cons m t ih =>
      intro acc h
      simp only [List.foldl_cons]
      by_cases hm : m ∈ acc
      · rw [if_pos hm]; exact ih acc h
      · rw [if_neg hm]
        refine ih _ (List.nodup_append.2 ⟨h, List.nodup_singleton m, ?_⟩)
        intro a ha hb
        rw [List.mem_singleton] at hb
        subst hb
        exact hm ha

/-- The accumulator of the searcher's query loop stays duplicate-free. -/
theorem searchLoop_nodup (jw : String → String → ℚ) (svc : SearchService Q)
    (track : Track) :
    ∀ (queries : List Q) (acc : List Track), acc.Nodup →
      (searchLoop jw svc track queries acc).2.Nodup := by
  intro queries
  induction queries with
  | nil => intro acc h; exact h
  | cons q rest ih =>
      intro acc h
      simp only [searchLoop]
      have h' := foldl_insert_absent_nodup (svc.search_query q) acc h
      split
      · exact h'
      · rcases hrec : searchLoop jw svc track rest
          ((svc.search_query q).foldl (fun ms m => if m ∈ ms then ms else ms ++ [m]) acc)
          with ⟨issued, final⟩
        have := ih _ h'
        rw [hrec] at this
        simpa using this

/-- C4: the searcher issues queries in order and stops after the first query
whose results contain a candidate scoring at least the 0.8 stop threshold
(here: the first query hits, so the second is never issued); the returned
list is duplicate-free, sorted by similarity to the input track in descending
order, and has at most `limit` elements. -/
theorem c4_searcher_early_stop (jw : String → String → ℚ) {Q : Type}
    (svc : SearchService Q) (track : Track) (limit : Nat) (q : Q) (rest : List Q)
    (hq : svc.queries = q :: rest)
    (hhit : ((svc.search_query q).any
      fun m => decide (similarity jw track m ≥ 4/5)) = true) :
    search_issued jw svc track = [q] ∧
    (search jw svc track limit).Pairwise
      (fun t1 t2 => similarity jw track t2 ≤ similarity jw track t1) ∧
    (search jw svc track limit).Nodup ∧
    (search jw svc track limit).length ≤ limit := by
  refine ⟨?_, ?_, ?_, ?_⟩
  · unfold search_issued
    rw [hq]
    simp only [searchLoop]
    rw [if_pos hhit]
  · unfold search
    have hsorted := @List.sorted_mergeSort Track
      (fun t1 t2 => decide (similarity jw track t2 ≤ similarity jw track t1))
      (fun a b c hab hbc => by
        simp only [decide_eq_true_eq] at hab hbc ⊢
        exact le_trans hbc hab)
      (fun a b => by
        simp only [Bool.or_eq_true, decide_eq_true_eq]
        exact le_total _ _)
      (searchLoop jw svc track svc.queries []).2
    refine List.Pairwise.sublist (List.take_sublist _ _) ?_
    exact hsorted.imp (fun h => by simpa using h)
  · unfold search
    refine List.Nodup.sublist (List.take_sublist _ _) ?_
    exact ((List.mergeSort_perm _ _).nodup_iff).2
      (searchLoop_nodup jw svc track svc.queries [] List.nodup_nil)
  · unfold search
    exact List.length_take_le _ _

/-- The track searched for in the C4 witness (carries one Spotify URI). -/
def c4Track : Track := ⟨⟨"w", []⟩, [], [], none, [SpotifyTrackURI.from_uri "hit"]⟩

/-- The confident first-query result of the C4 witness: it shares the URI,
so its similarity is 1 ≥ 0.8. -/
def c4Hit : Track := ⟨⟨"w2", []⟩, [], [], none, [SpotifyTrackURI.from_uri "hit"]⟩

/-- A two-query service whose first query already returns the confident
hit. -/
def c4Svc : SearchService Nat :=
  ⟨[0, 1], fun q => if q = 0 then [c4Hit] else [⟨⟨"other", []⟩, [], [], none, []⟩]⟩

/-- Witness for C4: on `c4Svc` only the first query is issued. -/
theorem c4_searcher_early_stop_witness :
    search_issued jw0 c4Svc c4Track = [0] ∧
    (search jw0 c4Svc c4Track 3).Pairwise
      (fun t1 t2 => similarity jw0 c4Track t2 ≤ similarity jw0 c4Track t1) ∧
    (search jw0 c4Svc c4Track 3).Nodup ∧
    (search jw0 c4Svc c4Track 3).length ≤ 3 := by
  have hsim : similarity jw0 c4Track c4Hit = 1 := by
    unfold similarity
    rw [if_pos]
    simp [c4Track, c4Hit]
  refine c4_searcher_early_stop jw0 c4Svc c4Track 3 0 [1] rfl ?_
  have : c4Svc.search_query 0 = [c4Hit] := rfl
  rw [this]
  simp only [List.any_cons, List.any_nil, Bool.or_false, decide_eq_true_eq]
  rw [hsim]
  norm_num

/-! ### Pull idempotence analysis (claim C7)

The second pull against an unchanged remote: the missing/invalid computation
is empty again, but `tracks_to_add` and the URI repair can fire again, as the
counterexample shows.  The key invariant is that after a successful pull,
every URI on the pulled service carried by a stored track appears among the
remote tracks' URIs. -/

/-- The invariant of a successful pull: every URI on `service` carried by a
track of `ts` appears among the remote tracks' URIs. -/
def on_service_uris_remote (service : ServiceType) (remote ts : List Track) : Prop :=
  ∀ t ∈ ts, ∀ u ∈ t.uris, u.service = service → u ∈ tracks_to_uris remote

/-- `get_missing_uris` is empty exactly when the invariant holds. -/
theorem get_missing_eq_nil_iff (service : ServiceType) (ts remote : List Track) :
    get_missing_uris service ts remote = [] ↔
      on_service_uris_remote service remote ts := by
  unfold get_missing_uris on_service_uris_remote tracks_to_uris
  rw [List.filter_eq_nil_iff]
  constructor
  · intro h t ht u hu hs
    by_contra hmem
    exact h u (List.mem_filter.2 ⟨List.mem_flatten.2 ⟨t.uris, List.mem_map.2 ⟨t, ht, rfl⟩, hu⟩,
      by simpa using hs⟩) (by simpa using hmem)
  · intro h u hu hnot
    obtain ⟨hu', hs⟩ := List.mem_filter.1 hu
    obtain ⟨us, hus, huus⟩ := List.mem_flatten.1 hu'
    obtain ⟨t, ht, rfl⟩ := List.mem_map.1 hus
    simp only [decide_eq_true_eq] at hs hnot
    exact hnot (h t ht u huus hs)

/-- Every member of `get_missing_uris` is an on-service URI of some current
track that is absent from the remote URIs. -/
theorem mem_get_missing (service : ServiceType) (ts remote : List Track)
    (u : URIBase) (hu : u ∈ get_missing_uris service ts remote) :
    (∃ t ∈ ts, u ∈ t.uris) ∧ u.service = service ∧ u ∉ tracks_to_uris remote := by
  unfold get_missing_uris at hu
  obtain ⟨hu', habs⟩ := List.mem_filter.1 hu
  obtain ⟨hu'', hs⟩ := List.mem_filter.1 hu'
  obtain ⟨us, hus, huus⟩ := List.mem_flatten.1 hu''
  obtain ⟨t, ht, rfl⟩ := List.mem_map.1 hus
  simp only [decide_eq_true_eq] at hs habs
  exact ⟨⟨t, ht, huus⟩, hs, by simpa using habs⟩

/-- A successful `remove_uris` returns the tracks unchanged, and certifies
that no given URI is carried by any track. -/
theorem remove_uris_ok (ts ts' : List Track) (us : List URIBase)
    (h : remove_uris ts us = .ok ts') :
    ts' = ts ∧ ∀ t ∈ ts, ∀ u ∈ us, u ∉ t.uris := by
  unfold remove_uris at h
  by_cases hc : (ts.any fun t => us.any fun uri => decide (uri ∈ t.uris)) = true
  · rw [if_pos hc] at h; cases h
  · rw [if_neg hc] at h
    cases h
    refine ⟨rfl, ?_⟩
    intro t ht u hu hmem
    exact hc (List.any_eq_true.2 ⟨t, ht, List.any_eq_true.2 ⟨u, hu, by simpa using hmem⟩⟩)

/-- A successful `remove_tracks` returns the tracks unchanged, and certifies
that no missing URI is carried by any track. -/
theorem remove_tracks_ok (ts ts' : List Track) (missing : List URIBase)
    (h : remove_tracks ts missing = .ok ts') :
    ts' = ts ∧ ∀ u ∈ missing, ∀ t ∈ ts, u ∉ t.uris := by
  unfold remove_tracks at h
  by_cases hc : (missing.any fun uri => ts.any fun t => decide (uri ∈ t.uris)) = true
  · rw [if_pos hc] at h; cases h
  · rw [if_neg hc] at h
    cases h
    refine ⟨rfl, ?_⟩
    intro u hu t ht hmem
    exact hc (List.any_eq_true.2 ⟨u, hu, List.any_eq_true.2 ⟨t, ht, by simpa using hmem⟩⟩)

/-- `remove_uris` with an empty URI list succeeds and changes nothing. -/
theorem remove_uris_nil (ts : List Track) : remove_uris ts [] = .ok ts := by
  unfold remove_uris
  rw [if_neg]
  simp

/-- `remove_tracks` with an empty missing list succeeds and changes
nothing. -/
theorem remove_tracks_nil (ts : List Track) : remove_tracks ts [] = .ok ts := by
  unfold remove_tracks
  rw [if_neg]
  simp

/-- A fold invariant, with membership of the consumed element available. -/
theorem foldl_preserve {γ α : Type} {P : γ → Prop} (step : γ → α → γ) :
    ∀ (l : List α) (init : γ), (∀ acc x, x ∈ l → P acc → P (step acc x)) →
      P init → P (l.foldl step init) := by
  intro l
  induction l with
  | nil => intro init _ h; exact h
  | cons x t ih =>
      intro init hstep h
      exact ih (step init x)
        (fun acc y hy hacc => hstep acc y (List.mem_cons_of_mem x hy) hacc)
        (hstep init x (List.mem_cons_self x t) h)

/-- `merge_uris` never drops a URI the track already had. -/
theorem mergeUris_subset_left (a b : List URIBase) (u : URIBase) (hu : u ∈ a) :
    u ∈ mergeUris a b := by
  unfold mergeUris
  refine foldl_preserve _ b a (fun acc x _ hacc => ?_) hu
  split
  · exact hacc
  · exact List.mem_append_left _ hacc

/-- Every URI of `merge_uris a b` comes from `a` or from `b`. -/
theorem mem_mergeUris (a b : List URIBase) (u : URIBase)
    (hu : u ∈ mergeUris a b) : u ∈ a ∨ u ∈ b := by
  unfold mergeUris at hu
  have := foldl_preserve (P := fun us => ∀ v ∈ us, v ∈ a ∨ v ∈ b)
    (fun us u' => if u' ∈ us then us else us ++ [u']) b a
    (fun acc x hx hacc => by
      intro v hv
      revert hv
      dsimp only
      split
      · exact fun hv => hacc v hv
      · intro hv
        rcases List.mem_append.1 hv with h | h
        · exact hacc v h
        · rw [List.mem_singleton] at h
          subst h
          exact Or.inr hx)
    (fun v hv => Or.inl hv)
  exact this u hu

/-- `Track.merge` never drops a URI of the merged-into track. -/
theorem Track.merge_uris_mono (t other : Track) (u : URIBase) (hu : u ∈ t.uris) :
    u ∈ (t.merge other).uris :=
  mergeUris_subset_left t.uris other.uris u hu

/-- Every URI of a merged track comes from one of the two tracks. -/
theorem Track.mem_merge_uris (t other : Track) (u : URIBase)
    (hu : u ∈ (t.merge other).uris) : u ∈ t.uris ∨ u ∈ other.uris :=
  mem_mergeUris t.uris other.uris u hu

/-- `merge_new_tracks` never loses a URI carried by some current track. -/
theorem merge_new_tracks_preserves_presence (jw : String → String → ℚ)
    (ts new : List Track) (u : URIBase) (h : ∃ t ∈ ts, u ∈ t.uris) :
    ∃ t ∈ merge_new_tracks jw ts new, u ∈ t.uris := by
  unfold merge_new_tracks
  refine foldl_preserve (P := fun acc => ∃ t ∈ acc, u ∈ t.uris) _ new ts
    (fun acc track _ hacc => ?_) h
  obtain ⟨t, ht, hu⟩ := hacc
  split
  · refine ⟨if are_same jw t track (7/10) then t.merge track else t, List.mem_map.2 ⟨t, ht, rfl⟩, ?_⟩
    split
    · exact Track.merge_uris_mono t track u hu
    · exact hu
  · exact ⟨t, List.mem_append_left _ ht, hu⟩

/-- New tracks selected by `tracks_to_add` are remote tracks. -/
theorem tracks_to_add_subset (jw : String → String → ℚ) (service : ServiceType)
    (current new : List Track) (t : Track) (ht : t ∈ tracks_to_add jw service current new) :
    t ∈ new := by
  unfold tracks_to_add at ht
  exact (List.mem_filter.1 (List.mem_filter.1 ht).1).1

/-- `merge_new_tracks` preserves the pulled-service invariant, provided every
new track is one of the remote tracks. -/
theorem merge_new_tracks_preserves_inv (jw : String → String → ℚ)
    (service : ServiceType) (remote ts new : List Track)
    (hnew : ∀ nt ∈ new, nt ∈ remote)
    (hinv : on_service_uris_remote service remote ts) :
    on_service_uris_remote service remote (merge_new_tracks jw ts new) := by
  unfold merge_new_tracks
  refine foldl_preserve (P := on_service_uris_remote service remote) _ new ts
    (fun acc track htrack hacc => ?_) hinv
  have htrackuris : ∀ u ∈ track.uris, u ∈ tracks_to_uris remote := by
    intro u hu
    exact List.mem_flatten.2 ⟨track.uris, List.mem_map.2 ⟨track, hnew track htrack, rfl⟩, hu⟩
  intro t' ht' u hu hs
  revert ht'
  split
  · intro ht'
    obtain ⟨t, ht, rfl⟩ := List.mem_map.1 ht'
    revert hu
    split
    · intro hu
      rcases Track.mem_merge_uris t track u hu with h | h
      · exact hacc t ht u h hs
      · exact htrackuris u h
    · intro hu
      exact hacc t ht u hu hs
  · intro ht'
    rcases List.mem_append.1 ht' with h | h
    · exact hacc t' h u hu hs
    · rw [List.mem_singleton] at h
      subst h
      exact htrackuris u hu

/-- `get_invalid_uris` of an empty list is empty. -/
theorem get_invalid_uris_nil (svc : ServiceData) : get_invalid_uris svc [] = [] := rfl

/-- When every remote track carries at least one URI, `fix_track_uri`
succeeds, and every URI of the repaired track was already on the track or
comes from the remote. -/
theorem fix_track_uri_ok (jw : String → String → ℚ) (remote : List Track)
    (hU : ∀ t ∈ remote, t.uris ≠ []) (t : Track) :
    ∃ t', fix_track_uri jw remote t = .ok t' ∧
      ∀ u ∈ t'.uris, u ∈ t.uris ∨ u ∈ tracks_to_uris remote := by
  unfold fix_track_uri
  rcases hm : remote.filter (fun t' => are_same jw t' t (7/10)) with _ | ⟨m, ms⟩
  · exact ⟨t, rfl, fun u hu => Or.inl hu⟩
  · have hmem : m ∈ remote := (List.mem_filter.1 (hm ▸ List.mem_cons_self m ms)).1
    rcases hu0 : m.uris with _ | ⟨u0, us⟩
    · exact absurd hu0 (hU m hmem)
    · have hu0mem : u0 ∈ tracks_to_uris remote :=
        List.mem_flatten.2 ⟨m.uris, List.mem_map.2 ⟨m, hmem, rfl⟩, by rw [hu0]; exact List.mem_cons_self u0 us⟩
      by_cases hin : u0 ∈ t.uris
      · exact ⟨t, by dsimp only; rw [hu0]; dsimp only; rw [if_pos hin], fun u hu => Or.inl hu⟩
      · refine ⟨{ t with uris := t.uris.filter (fun u => u.service ≠ u0.service) ++ [u0] },
          by dsimp only; rw [hu0]; dsimp only; rw [if_neg hin], ?_⟩
        intro u hu
        rcases List.mem_append.1 hu with h | h
        · exact Or.inl (List.mem_filter.1 h).1
        · rw [List.mem_singleton] at h
          subst h
          exact Or.inr hu0mem

/-- When every remote track carries at least one URI, `add_changed_uris`
succeeds, and every output track's URIs come from the corresponding input
track or from the remote. -/
theorem add_changed_uris_ok (jw : String → String → ℚ) (remote : List Track)
    (hU : ∀ t ∈ remote, t.uris ≠ []) :
    ∀ ts : List Track, ∃ ts', add_changed_uris jw remote ts = .ok ts' ∧
      ∀ t' ∈ ts', ∃ t ∈ ts, ∀ u ∈ t'.uris, u ∈ t.uris ∨ u ∈ tracks_to_uris remote := by
  intro ts
  induction ts with
  | nil => exact ⟨[], rfl, fun t' ht' => absurd ht' (List.not_mem_nil t')⟩
  | cons t rest ih =>
      obtain ⟨t', ht', hprop⟩ := fix_track_uri_ok jw remote hU t
      obtain ⟨rest', hrest', hprops⟩ := ih
      refine ⟨t' :: rest', ?_, ?_⟩
      · unfold add_changed_uris
        rw [ht', hrest']
      · intro t'' ht''
        cases ht'' with
        | head => exact ⟨t, List.mem_cons_self t rest, hprop⟩
        | tail _ hmem =>
            obtain ⟨t0, ht0, h0⟩ := hprops t'' hmem
            exact ⟨t0, List.mem_cons_of_mem t ht0, h0⟩

/-- Inversion of a *successful* pull: the pass found no missing and no
invalid URIs (otherwise `remove_uris`/`remove_tracks` would have raised the
`bad_uris` `AttributeError`), and afterwards every stored URI on the pulled
service appears among the remote URIs. -/
theorem pull_ok_inv (jw : String → String → ℚ) (svc : ServiceData) (pl : Playlist)
    (o : PullOutcome) (h : pull_playlist jw svc pl = .ok o) :
    o.missing_uris = [] ∧ o.invalid_uris = [] ∧
    on_service_uris_remote svc.type svc.remoteTracks o.playlist.tracks := by
  unfold pull_playlist at h
  dsimp only at h
  split at h
  · exact Except.noConfusion h
  rename_i ts' hac
  split at h
  · exact Except.noConfusion h
  rename_i ts'' hru
  split at h
  · exact Except.noConfusion h
  rename_i tsF hrt
  cases h
  obtain ⟨hts, hcert1⟩ := remove_uris_ok _ _ _ hru
  obtain ⟨htsF, hcert2⟩ := remove_tracks_ok _ _ _ hrt
  rw [hts] at hcert2 htsF
  have hnmnil : get_missing_uris svc.type ts' svc.remoteTracks = [] := by
    by_contra hne
    obtain ⟨u, hu⟩ := List.exists_mem_of_ne_nil _ hne
    obtain ⟨⟨t, ht, hut⟩, hus, habs⟩ := mem_get_missing _ _ _ u hu
    by_cases hinv : u ∈ get_invalid_uris svc
        (get_missing_uris svc.type ts' svc.remoteTracks)
    · exact hcert1 t ht u hinv hut
    · have hums : u ∈ (get_missing_uris svc.type ts' svc.remoteTracks).filter
          (fun uri => uri ∉ get_invalid_uris svc
            (get_missing_uris svc.type ts' svc.remoteTracks)) :=
        List.mem_filter.2 ⟨hu, by simpa using hinv⟩
      obtain ⟨t2, ht2, hu2⟩ := merge_new_tracks_preserves_presence jw ts' _ u ⟨t, ht, hut⟩
      exact hcert2 u hums t2 ht2 hu2
  have hinvnil : get_invalid_uris svc
      (get_missing_uris svc.type ts' svc.remoteTracks) = [] := by
    rw [hnmnil, get_invalid_uris_nil]
  have hinv' : on_service_uris_remote svc.type svc.remoteTracks ts' :=
    (get_missing_eq_nil_iff _ _ _).1 hnmnil
  refine ⟨?_, ?_, ?_⟩
  · show (get_missing_uris svc.type ts' svc.remoteTracks).filter _ = []
    rw [hnmnil, List.filter_nil]
  · exact hinvnil
  · show on_service_uris_remote svc.type svc.remoteTracks tsF
    rw [htsF]
    exact merge_new_tracks_preserves_inv jw svc.type svc.remoteTracks ts' _
      (fun nt hnt => tracks_to_add_subset jw svc.type _ _ nt hnt) hinv'

/-- Direct computation of a pull pass whose URI repair succeeds and whose
missing-URI list comes out empty. -/
theorem pull_eq_of_no_missing (jw : String → String → ℚ) (svc : ServiceData)
    (pl : Playlist) (ts2 : List Track)
    (hac : add_changed_uris jw svc.remoteTracks pl.tracks = .ok ts2)
    (hnm : get_missing_uris svc.type ts2 svc.remoteTracks = []) :
    pull_playlist jw svc pl = .ok
      ⟨Playlist.mk svc.metadata.name svc.metadata.description
        (merge_new_tracks jw ts2 (tracks_to_add jw svc.type pl.tracks svc.remoteTracks)),
       tracks_to_add jw svc.type pl.tracks svc.remoteTracks, [], []⟩ := by
  unfold pull_playlist Playlist.merge_metadata
  dsimp only
  rw [hac]
  dsimp only
  rw [hnm, get_invalid_uris_nil, List.filter_nil, remove_uris_nil]
  dsimp only
  rw [remove_tracks_nil]

/-- Under the trivial metric every normalized string similarity is 0 (both
the veto branch and the metric branch return 0). -/
theorem nss_jw0 (s t : String) : normalized_string_similarity jw0 s t = 0 := by
  unfold normalized_string_similarity
  split <;> rfl

/-! ### The concrete pull scenario of claim C7

One Spotify service, one linked playlist URI.  The stored track `c7T`
carries two Spotify URIs; the remote track `c7R1` shares one of them (and
has a fresh primary URI `c7UriC`), the remote track `c7R2` shares the other.
The first pull's URI repair rewrites `c7T`'s URIs to `[c7UriC]`, after which
`c7R2` no longer matches anything — so the *second* pull, against unchanged
remote data, computes a non-empty `tracks_to_add` and changes the track
list.  All matcher decisions in this scenario are decided by shared URIs or
by the keyword veto (`live`), never by the string metric's values. -/

def c7UriA : URIBase := SpotifyTrackURI.from_uri "a"

def c7UriB : URIBase := SpotifyTrackURI.from_uri "b"

def c7UriC : URIBase := SpotifyTrackURI.from_uri "c"

/-- The stored track, carrying two Spotify URIs. -/
def c7T : Track := ⟨⟨"song", []⟩, [], [], none, [c7UriB, c7UriA]⟩

/-- First remote track: fresh primary URI `c7UriC`, also carries `c7UriB`. -/
def c7R1 : Track := ⟨⟨"other (live)", []⟩, [], [], none, [c7UriC, c7UriB]⟩

/-- Second remote track: carries `c7UriA`; its name only differs from the
stored track's by the `live` keyword, so the veto scores their names 0. -/
def c7R2 : Track := ⟨⟨"song (live)", []⟩, [], [], none, [c7UriA]⟩

/-- The Spotify service of the scenario (not `Checkable`). -/
def c7Service : ServiceData := ⟨.spotify, [c7R1, c7R2], ⟨"pl", ""⟩, false, fun _ => false⟩

/-- The stored playlist before the first pull. -/
def c7Playlist : Playlist := ⟨"pl", "", [c7T]⟩

/-- The stored track after the first pull's URI repair. -/
def c7TrackAfter : Track := ⟨⟨"song", []⟩, [], [], none, [c7UriC]⟩

/-- Outcome of the first pull. -/
def c7Outcome1 : PullOutcome := ⟨⟨"pl", "", [c7TrackAfter]⟩, [], [], []⟩

/-- Outcome of the second pull: `c7R2` is added again. -/
def c7Outcome2 : PullOutcome := ⟨⟨"pl", "", [c7TrackAfter, c7R2]⟩, [c7R2], [], []⟩

theorem c7_sim_R1_T : similarity jw0 c7R1 c7T = 1 := by
  unfold similarity
  rw [if_pos]
  simp [c7R1, c7T]

theorem c7_sim_R2_T : similarity jw0 c7R2 c7T = 1 := by
  unfold similarity
  rw [if_pos]
  simp [c7R2, c7T]

theorem c7_sim_R1_After : similarity jw0 c7R1 c7TrackAfter = 1 := by
  unfold similarity
  rw [if_pos]
  simp [c7R1, c7TrackAfter]

theorem c7_sim_R2_After : similarity jw0 c7R2 c7TrackAfter = 0 := by
  simp [similarity, feature_scores, name_feature, artists_feature, album_feature,
    length_feature, aliased_string_similarity, pairwise_max, nss_jw0,
    c7R2, c7TrackAfter, c7UriA, c7UriC, SpotifyTrackURI.from_uri,
    AliasedString.all_values, weights]

theorem c7_sim_After_R2 : similarity jw0 c7TrackAfter c7R2 = 0 := by
  simp [similarity, feature_scores, name_feature, artists_feature, album_feature,
    length_feature, aliased_string_similarity, pairwise_max, nss_jw0,
    c7R2, c7TrackAfter, c7UriA, c7UriC, SpotifyTrackURI.from_uri,
    AliasedString.all_values, weights]

theorem c7_same_R1_T : are_same jw0 c7R1 c7T (7/10) = true := by
  unfold are_same
  rw [c7_sim_R1_T]
  norm_num

theorem c7_same_R2_T : are_same jw0 c7R2 c7T (7/10) = true := by
  unfold are_same
  rw [c7_sim_R2_T]
  norm_num

theorem c7_same_R1_After : are_same jw0 c7R1 c7TrackAfter (7/10) = true := by
  unfold are_same
  rw [c7_sim_R1_After]
  norm_num

theorem c7_same_R2_After : are_same jw0 c7R2 c7TrackAfter (7/10) = false := by
  unfold are_same
  rw [c7_sim_R2_After]
  norm_num

theorem c7_same_After_R2 : are_same jw0 c7TrackAfter c7R2 (7/10) = false := by
  unfold are_same
  rw [c7_sim_After_R2]
  norm_num

theorem c7_on_T : c7T.is_on_service ServiceType.spotify = true := by
  simp [c7T, Track.is_on_service, c7UriA, c7UriB, SpotifyTrackURI.from_uri]

theorem c7_on_R1 : c7R1.is_on_service ServiceType.spotify = true := by
  simp [c7R1, Track.is_on_service, c7UriB, c7UriC, SpotifyTrackURI.from_uri]

theorem c7_on_R2 : c7R2.is_on_service ServiceType.spotify = true := by
  simp [c7R2, Track.is_on_service, c7UriA, SpotifyTrackURI.from_uri]

theorem c7_on_After : c7TrackAfter.is_on_service ServiceType.spotify = true := by
  simp [c7TrackAfter, Track.is_on_service, c7UriC, SpotifyTrackURI.from_uri]

theorem c7_missing_nil :
    get_missing_uris ServiceType.spotify [c7TrackAfter] [c7R1, c7R2] = [] := by
  simp [get_missing_uris, tracks_to_uris, c7TrackAfter, c7R1, c7R2,
    c7UriA, c7UriB, c7UriC, SpotifyTrackURI.from_uri, SpotifyTrackURI.uri_to_url]

theorem c7_fix1 : fix_track_uri jw0 [c7R1, c7R2] c7T = .ok c7TrackAfter := by
  unfold fix_track_uri
  rw [show List.filter (fun t => are_same jw0 t c7T (7/10)) [c7R1, c7R2]
      = [c7R1, c7R2] by simp [c7_same_R1_T, c7_same_R2_T]]
  dsimp only
  rw [show c7R1.uris = c7UriC :: [c7UriB] from rfl]
  dsimp only
  rw [if_neg (by simp [c7T, c7UriA, c7UriB, c7UriC, SpotifyTrackURI.from_uri,
    SpotifyTrackURI.uri_to_url])]
  simp [c7T, c7TrackAfter, c7UriA, c7UriB, c7UriC, SpotifyTrackURI.from_uri,
    SpotifyTrackURI.uri_to_url]

theorem c7_fix2 : fix_track_uri jw0 [c7R1, c7R2] c7TrackAfter = .ok c7TrackAfter := by
  unfold fix_track_uri
  rw [show List.filter (fun t => are_same jw0 t c7TrackAfter (7/10)) [c7R1, c7R2]
      = [c7R1] by simp [c7_same_R1_After, c7_same_R2_After]]
  dsimp only
  rw [show c7R1.uris = c7UriC :: [c7UriB] from rfl]
  dsimp only
  rw [if_pos (by simp [c7TrackAfter])]

/-- First pull: URI repair rewrites the stored track, nothing is added or
missing. -/
theorem c7_run1_eq : pull_playlist jw0 c7Service c7Playlist = .ok c7Outcome1 := by
  have hadd : tracks_to_add jw0 ServiceType.spotify [c7T] [c7R1, c7R2] = [] := by
    unfold tracks_to_add
    simp [tracks_match_and_on_service, c7_on_T, c7_on_R1, c7_on_R2,
      c7_same_R1_T, c7_same_R2_T]
  have hac : add_changed_uris jw0 [c7R1, c7R2] [c7T] = .ok [c7TrackAfter] := by
    simp [add_changed_uris, c7_fix1]
  have h := pull_eq_of_no_missing jw0 c7Service c7Playlist [c7TrackAfter] hac
    c7_missing_nil
  rw [show tracks_to_add jw0 c7Service.type c7Playlist.tracks c7Service.remoteTracks
      = [] from hadd] at h
  exact h

/-- Second pull, against the same remote data: `c7R2` is reported as a track
to add and appended, so the track list changes again. -/
theorem c7_run2_eq :
    pull_playlist jw0 c7Service c7Outcome1.playlist = .ok c7Outcome2 := by
  have hadd : tracks_to_add jw0 ServiceType.spotify [c7TrackAfter] [c7R1, c7R2]
      = [c7R2] := by
    unfold tracks_to_add
    simp [tracks_match_and_on_service, c7_on_After, c7_on_R1, c7_on_R2,
      c7_same_R1_After, c7_same_R2_After]
  have hac : add_changed_uris jw0 [c7R1, c7R2] [c7TrackAfter] = .ok [c7TrackAfter] := by
    simp [add_changed_uris, c7_fix2]
  have hmerge : merge_new_tracks jw0 [c7TrackAfter] [c7R2] = [c7TrackAfter, c7R2] := by
    simp [merge_new_tracks, c7_same_After_R2]
  have h := pull_eq_of_no_missing jw0 c7Service c7Outcome1.playlist [c7TrackAfter] hac
    c7_missing_nil
  rw [show tracks_to_add jw0 c7Service.type c7Outcome1.playlist.tracks
      c7Service.remoteTracks = [c7R2] from hadd, hmerge] at h
  exact h

/-- Counterexample to C7 as stated: pulling twice against byte-identical
remote results, the *second* run computes a non-empty `tracks_to_add` and
changes the playlist's tracks (URI repair in run one destroyed the stored
URI that matched `c7R2`).  The second run does compute no missing and no
invalid URIs. -/
theorem c7_counterexample :
    pull_playlist jw0 c7Service c7Playlist = .ok c7Outcome1 ∧
    pull_playlist jw0 c7Service c7Outcome1.playlist = .ok c7Outcome2 ∧
    c7Outcome1.new_tracks = [] ∧ c7Outcome1.missing_uris = [] ∧
    c7Outcome1.invalid_uris = [] ∧
    c7Outcome2.new_tracks = [c7R2] ∧
    c7Outcome2.playlist.tracks ≠ c7Outcome1.playlist.tracks := by
  refine ⟨c7_run1_eq, c7_run2_eq, rfl, rfl, rfl, rfl, ?_⟩
  simp [c7Outcome1, c7Outcome2]

/-- C7 (amended): a second pull against unchanged remote data computes no
missing URIs and no invalid URIs (and therefore completes without touching
`bad_uris`); it may, however, still compute tracks to add and rewrite the
stored tracks' URIs, as the counterexample shows.  The hypothesis that every
remote track carries a URI rules out an `IndexError` inside the second run's
URI repair. -/
theorem c7_amended_second_pull_no_missing (jw : String → String → ℚ)
    (svc : ServiceData) (pl : Playlist) (o1 : PullOutcome)
    (h1 : pull_playlist jw svc pl = .ok o1)
    (hU : ∀ t ∈ svc.remoteTracks, t.uris ≠ []) :
    ∃ o2, pull_playlist jw svc o1.playlist = .ok o2 ∧
      o2.missing_uris = [] ∧ o2.invalid_uris = [] := by
  obtain ⟨-, -, hinv1⟩ := pull_ok_inv jw svc pl o1 h1
  obtain ⟨ts2, hac2, hprop⟩ := add_changed_uris_ok jw svc.remoteTracks hU o1.playlist.tracks
  have hinv2 : on_service_uris_remote svc.type svc.remoteTracks ts2 := by
    intro t' ht' u hu hs
    obtain ⟨t, ht, himp⟩ := hprop t' ht'
    rcases himp u hu with h | h
    · exact hinv1 t ht u h hs
    · exact h
  have hnm2 : get_missing_uris svc.type ts2 svc.remoteTracks = [] :=
    (get_missing_eq_nil_iff _ _ _).2 hinv2
  exact ⟨_, pull_eq_of_no_missing jw svc o1.playlist ts2 hac2 hnm2, rfl, rfl⟩

/-- Witness for C7 (amended), at the concrete scenario of the
counterexample. -/
theorem c7_amended_second_pull_no_missing_witness :
    ∃ o2, pull_playlist jw0 c7Service c7Outcome1.playlist = .ok o2 ∧
      o2.missing_uris = [] ∧ o2.invalid_uris = [] :=
  c7_amended_second_pull_no_missing jw0 c7Service c7Playlist c7Outcome1 c7_run1_eq
    (by intro t ht; simp [c7Service, c7R1, c7R2, c7UriA, c7UriB, c7UriC,
      SpotifyTrackURI.from_uri] at ht; rcases ht with rfl | rfl <;> simp)

end Unitunes
